import Mathlib

/-!
Verification development for the `java-scanner` repository: a Node/Express
service (`src/server.js` and a second, unnamed near-duplicate server file)
that forwards Java snippets to an LLM API and post-processes the reply.

The embedding below translates the relevant JavaScript into Lean:
pure functions become Lean functions, the HTTP handlers become functions
from the request data (and an oracle for the upstream HTTP call) to a
response value, and the external `JSON.parse` is embedded as an executable
JSON parser following ECMA-404 (the grammar `JSON.parse` accepts).
JavaScript numbers appearing in the analysed payloads are modelled as
integers (`Int`) resp. rationals (`Rat`) for parsed JSON literals.
-/

set_option maxHeartbeats 1000000

namespace JavaScanner

/-- Lowercase a string character-wise; embeds JavaScript
`String.prototype.toLowerCase` (ASCII-faithful, which is all the
source ever compares against). -/
def lowerStr (s : String) : String :=
  String.mk (s.data.map Char.toLower)

/-- `leadsWith needle hay` is true when `needle` occurs at the front of
`hay`; embeds anchored literal matching. -/
def leadsWith : List Char → List Char → Bool
  | [], _ => true
  | _ :: _, [] => false
  | a :: as, b :: bs => a = b && leadsWith as bs

/-- `containsSeq needle hay` is true when `needle` occurs contiguously
anywhere in `hay`; embeds JavaScript `String.prototype.includes`. -/
def containsSeq (needle : List Char) : List Char → Bool
  | [] => leadsWith needle []
  | b :: bs => leadsWith needle (b :: bs) || containsSeq needle bs

/-- The character class of the JavaScript regex `\s`, restricted to the
ASCII range (the source's patterns are only ever applied looking for
ASCII Java tokens). -/
def regexSpace (c : Char) : Bool :=
  c = ' ' || c = '\t' || c = '\n' || c = '\r' || c = '\x0b' || c = '\x0c'

/-- Anchored match for the regexes `if\s*\(`, `for\s*\(`, `while\s*\(`,
`catch\s*\(` of `estimateCyclomaticComplexity` (src/server.js lines
323-327): the keyword, a greedy run of whitespace, then `(`. Returns the
length of the match when the pattern matches at the head of the input. -/
def keywordParen (kw : List Char) (cs : List Char) : Option Nat :=
  if leadsWith kw cs then
    let rest := cs.drop kw.length
    let w := (rest.takeWhile regexSpace).length
    match rest.drop w with
    | c :: _ => if c = '(' then some (kw.length + w + 1) else none
    | [] => none
  else none

/-- Anchored match for the regex `case\s+` (src/server.js line 328):
`case` followed by a greedy nonempty run of whitespace. -/
def casePat (cs : List Char) : Option Nat :=
  if leadsWith "case".data cs then
    let rest := cs.drop 4
    let w := (rest.takeWhile regexSpace).length
    if w = 0 then none else some (4 + w)
  else none

/-- Anchored match for a literal regex such as `&&`, `\|\|`, `\?`
(src/server.js lines 329-331). -/
def litPat (lit : List Char) (cs : List Char) : Option Nat :=
  if leadsWith lit cs then some lit.length else none

/-- Matcher for `if\s*\(`. -/
def ifPat : List Char → Option Nat := keywordParen "if".data

/-- Matcher for `for\s*\(`. -/
def forPat : List Char → Option Nat := keywordParen "for".data

/-- Matcher for `while\s*\(`. -/
def whilePat : List Char → Option Nat := keywordParen "while".data

/-- Matcher for `catch\s*\(`. -/
def catchPat : List Char → Option Nat := keywordParen "catch".data

/-- Matcher for `&&`. -/
def ampPat : List Char → Option Nat := litPat ['&', '&']

/-- Matcher for `\|\|`. -/
def pipePat : List Char → Option Nat := litPat ['|', '|']

/-- Matcher for `\?`. -/
def questionPat : List Char → Option Nat := litPat ['?']

/-- Scanning loop of `countMatches` below: the fuel is an upper bound on
the number of characters left, so the recursion is structural (every
step consumes at least one character). -/
def countMatchesAux (p : List Char → Option Nat) : Nat → List Char → Nat
  | 0, _ => 0
  | _ + 1, [] => 0
  | fuel + 1, c :: cs =>
    match p (c :: cs) with
    | some (k + 1) => 1 + countMatchesAux p fuel (cs.drop k)
    | _ => countMatchesAux p fuel cs

/-- Number of non-overlapping matches of an anchored pattern, scanning
left to right and resuming after each match; embeds the semantics of
`code.match(/pattern/g).length` used at src/server.js lines 334-339. -/
def countMatches (p : List Char → Option Nat) (cs : List Char) : Nat :=
  countMatchesAux p cs.length cs

/-- The eight decision-point patterns of src/server.js lines 323-332,
in source order. -/
def decisionPatterns : List (List Char → Option Nat) :=
  [ifPat, forPat, whilePat, catchPat, casePat, ampPat, pipePat, questionPat]

/-- Embeds `estimateCyclomaticComplexity` (src/server.js lines 319-342):
base complexity 1, plus the number of matches of each decision pattern,
then `Math.max(1, Math.min(complexity, 50))`. -/
def estimateCyclomaticComplexity (code : String) : Nat :=
  let complexity := decisionPatterns.foldl (fun acc p => acc + countMatches p code.data) 1
  max 1 (min complexity 50)

/-- The `summary` object of an AnalysisResult (src/server.js lines
252-260): per-severity counts plus a total. JavaScript numbers are
modelled as integers. -/
structure Summary where
  critical : Int := 0
  high : Int := 0
  medium : Int := 0
  low : Int := 0
  total : Int := 0

/-- A single finding, per the prompt's schema (src/server.js lines
219-228). Every field is optional because the LLM may omit any of them;
`none` models a missing (JavaScript `undefined`) field. -/
structure Issue where
  title : Option String := none
  severity : Option String := none
  line : Option Int := none
  description : Option String := none
  codeSnippet : Option String := none
  solution : Option String := none

/-- The `metrics` object as reported by the model (src/server.js lines
233-238); `none` models a missing field. -/
structure Metrics where
  complexity : Option Int := none
  lines : Option Int := none
  maintainability : Option Int := none
  security : Option Int := none

/-- The raw analysis result handed to `enhanceAnalysisResult`; each
container may be missing (src/server.js lines 252-272 backfill them). -/
structure AnalysisResult where
  summary : Option Summary := none
  issues : Option (List Issue) := none
  suggestions : Option (List String) := none
  metrics : Option Metrics := none

/-- The `severityCounts` accumulator of src/server.js line 278. -/
structure SevCounts where
  critical : Int := 0
  high : Int := 0
  medium : Int := 0
  low : Int := 0

/-- Metrics after `enhanceAnalysisResult`: every field is present,
either passed through or backfilled (src/server.js lines 288-313). -/
structure EnhancedMetrics where
  complexity : Int
  lines : Int
  maintainability : Int
  security : Int

/-- An AnalysisResult after `enhanceAnalysisResult`: all containers
present, summary recomputed, metrics all filled. -/
structure EnhancedResult where
  summary : Summary
  issues : List Issue
  suggestions : List String
  metrics : EnhancedMetrics

/-- JavaScript falsiness of a reported numeric metric field: the source
tests `!result.metrics.lines` etc., which is true for a missing field
(`undefined`) and for the number `0`. -/
def jsFalsy : Option Int → Bool
  | none => true
  | some n => n == 0

/-- `jsOr v d` embeds the source's `if (!x) x = d` backfill pattern on a
numeric field: a missing or zero value is replaced by `d`, any other
value is kept. -/
def jsOr : Option Int → Int → Int
  | none, d => d
  | some n, d => if n = 0 then d else n

/-- Embeds `issue.severity?.toLowerCase() || 'low'` (src/server.js line
280): a missing or empty severity becomes `"low"`, otherwise the
severity is lowercased. -/
def jsSeverity (i : Issue) : String :=
  match i.severity with
  | none => "low"
  | some s => if lowerStr s = "" then "low" else lowerStr s

/-- A severity string that is an own key of the `severityCounts` object,
i.e. one of the four recognised levels (src/server.js line 281; the
model tracks only the four counted keys). -/
def recognizedSeverity (s : String) : Bool :=
  s == "critical" || s == "high" || s == "medium" || s == "low"

/-- One step of the `forEach` at src/server.js lines 279-284: bump the
count keyed by the issue's effective severity, when it is one of the
four recognised keys. -/
def sevStep (acc : SevCounts) (i : Issue) : SevCounts :=
  let s := jsSeverity i
  if s = "critical" then { acc with critical := acc.critical + 1 }
  else if s = "high" then { acc with high := acc.high + 1 }
  else if s = "medium" then { acc with medium := acc.medium + 1 }
  else if s = "low" then { acc with low := acc.low + 1 }
  else acc

/-- The security-issue filter of src/server.js lines 306-309: the title
or the description, lowercased, contains the substring `"安全"`; a
missing field contributes `false` (optional chaining). -/
def issueMentionsSecurity (i : Issue) : Bool :=
  (match i.title with
   | some t => containsSeq "安全".data (lowerStr t).data
   | none => false) ||
  (match i.description with
   | some d => containsSeq "安全".data (lowerStr d).data
   | none => false)

/-- Line count backfill: `originalCode.split('\n').length`
(src/server.js line 290). -/
def localLines (code : String) : Int :=
  ((code.splitOn "\n").length : Int)

/-- Maintainability backfill (src/server.js lines 298-302):
`Math.max(50, 100 - Math.min(total * 5, 50))`. -/
def localMaintainability (total : Int) : Int :=
  max 50 (100 - min (total * 5) 50)

/-- Security backfill (src/server.js lines 304-313):
`Math.max(0, 100 - securityIssues * 10)`. -/
def localSecurity (securityIssues : Int) : Int :=
  max 0 (100 - securityIssues * 10)

/-- The reported metrics with the `!result.metrics` default applied
(src/server.js lines 270-272). -/
def reportedMetrics (r : AnalysisResult) : Metrics :=
  r.metrics.getD {}

/-- Embeds `enhanceAnalysisResult` (src/server.js lines 250-316):
defaults the containers, sets `summary.total` to the issue count,
recomputes the four severity counts from the issues (spread over the
old summary), and backfills each falsy metric with the local estimate. -/
def enhanceAnalysisResult (result : AnalysisResult) (originalCode : String) : EnhancedResult :=
  let summary0 := result.summary.getD {}
  let issues := result.issues.getD []
  let suggestions := result.suggestions.getD []
  let metrics0 := reportedMetrics result
  let total : Int := issues.length
  let counts := issues.foldl sevStep {}
  let summary1 : Summary :=
    { summary0 with
      critical := counts.critical, high := counts.high,
      medium := counts.medium, low := counts.low, total := total }
  let lines := jsOr metrics0.lines (localLines originalCode)
  let complexity := jsOr metrics0.complexity (estimateCyclomaticComplexity originalCode : Int)
  let maintainability := jsOr metrics0.maintainability (localMaintainability total)
  let securityIssues : Int := (issues.filter issueMentionsSecurity).length
  let security := jsOr metrics0.security (localSecurity securityIssues)
  { summary := summary1, issues := issues, suggestions := suggestions,
    metrics := { complexity := complexity, lines := lines,
                 maintainability := maintainability, security := security } }

/-- JSON values, as produced by `JSON.parse`. Numeric literals are
modelled as rationals (decimal literals are exactly representable). -/
inductive Json where
  | null
  | bool (b : Bool)
  | num (q : Rat)
  | str (s : String)
  | arr (elems : List Json)
  | obj (members : List (String × Json))

/-- JSON insignificant whitespace (ECMA-404): space, tab, LF, CR. -/
def jsonWs (c : Char) : Bool :=
  c = ' ' || c = '\t' || c = '\n' || c = '\r'

/-- Drop leading JSON whitespace. -/
def skipWs : List Char → List Char
  | [] => []
  | c :: cs => if jsonWs c then skipWs cs else c :: cs

/-- Value of a hex digit, if the character is one. -/
def hexVal (c : Char) : Option Nat :=
  if '0' ≤ c ∧ c ≤ '9' then some (c.toNat - '0'.toNat)
  else if 'a' ≤ c ∧ c ≤ 'f' then some (c.toNat - 'a'.toNat + 10)
  else if 'A' ≤ c ∧ c ≤ 'F' then some (c.toNat - 'A'.toNat + 10)
  else none

/-- Parse the body of a JSON string after the opening quote, returning
the decoded characters and the input after the closing quote. Handles
the escapes `\" \\ \/ \b \f \n \r \t \uXXXX`; unescaped control
characters are rejected. (Lone surrogate `\u` escapes, which JavaScript
would keep as code units, fall outside the model's `Char` and decode to
NUL.) -/
def parseStringChars : List Char → Option (List Char × List Char)
  | [] => none
  | '"' :: rest => some ([], rest)
  | '\\' :: rest =>
    match rest with
    | '"' :: r => (parseStringChars r).map (fun p => ('"' :: p.1, p.2))
    | '\\' :: r => (parseStringChars r).map (fun p => ('\\' :: p.1, p.2))
    | '/' :: r => (parseStringChars r).map (fun p => ('/' :: p.1, p.2))
    | 'b' :: r => (parseStringChars r).map (fun p => ('\x08' :: p.1, p.2))
    | 'f' :: r => (parseStringChars r).map (fun p => ('\x0c' :: p.1, p.2))
    | 'n' :: r => (parseStringChars r).map (fun p => ('\n' :: p.1, p.2))
    | 'r' :: r => (parseStringChars r).map (fun p => ('\r' :: p.1, p.2))
    | 't' :: r => (parseStringChars r).map (fun p => ('\t' :: p.1, p.2))
    | 'u' :: a :: b :: c :: d :: r =>
      match hexVal a, hexVal b, hexVal c, hexVal d with
      | some va, some vb, some vc, some vd =>
        (parseStringChars r).map
          (fun p => (Char.ofNat (((va * 16 + vb) * 16 + vc) * 16 + vd) :: p.1, p.2))
      | _, _, _, _ => none
    | _ => none
  | c :: rest =>
    if c.toNat < 32 then none
    else (parseStringChars rest).map (fun p => (c :: p.1, p.2))

/-- Numeric value of a digit character. -/
def digitVal (c : Char) : Nat := c.toNat - '0'.toNat

/-- Value of a digit string. -/
def digitsToNat (ds : List Char) : Nat :=
  ds.foldl (fun a c => a * 10 + digitVal c) 0

/-- Assemble a JSON number from its parsed parts:
sign, integer digits, fraction digits, exponent sign and digits. -/
def ratOfParts (neg : Bool) (intDs fracDs : List Char) (expNeg : Bool)
    (expDs : List Char) : Rat :=
  let mant : Int := (digitsToNat (intDs ++ fracDs) : Int)
  let mant := if neg then -mant else mant
  let e : Int :=
    (if expNeg then -(digitsToNat expDs : Int) else (digitsToNat expDs : Int))
      - (fracDs.length : Int)
  (mant : Rat) * (10 : Rat) ^ e

/-- Parse the optional fraction and exponent of a JSON number, given the
already-parsed sign and integer digits. -/
def parseFracExp (neg : Bool) (intDs : List Char) (cs : List Char) :
    Option (Rat × List Char) := do
  let (fds, cs2) ←
    match cs with
    | '.' :: r =>
      let p := r.span Char.isDigit
      if p.1.isEmpty then none else some (p.1, p.2)
    | _ => some (([] : List Char), cs)
  match cs2 with
  | 'e' :: r | 'E' :: r =>
    let (expNeg, r2) :=
      match r with
      | '+' :: rr => (false, rr)
      | '-' :: rr => (true, rr)
      | _ => (false, r)
    let p := r2.span Char.isDigit
    if p.1.isEmpty then none
    else some (ratOfParts neg intDs fds expNeg p.1, p.2)
  | _ => some (ratOfParts neg intDs fds false [], cs2)

/-- Parse a JSON number at the head of the input (ECMA-404: optional
minus, `0` or a nonzero-led digit run — no leading zeros — then optional
fraction and exponent). -/
def parseNumber (cs : List Char) : Option (Rat × List Char) :=
  let (neg, cs1) :=
    match cs with
    | '-' :: r => (true, r)
    | _ => (false, cs)
  match cs1 with
  | '0' :: r =>
    match r with
    | d :: _ => if d.isDigit then none else parseFracExp neg ['0'] r
    | [] => parseFracExp neg ['0'] []
  | _ =>
    let p := cs1.span Char.isDigit
    if p.1.isEmpty then none else parseFracExp neg p.1 p.2

mutual

/-- Parse one JSON value (after skipping leading whitespace), with fuel
bounding the nesting depth. -/
def parseVal : Nat → List Char → Option (Json × List Char)
  | 0, _ => none
  | fuel + 1, cs =>
    match skipWs cs with
    | 'n' :: 'u' :: 'l' :: 'l' :: r => some (.null, r)
    | 't' :: 'r' :: 'u' :: 'e' :: r => some (.bool true, r)
    | 'f' :: 'a' :: 'l' :: 's' :: 'e' :: r => some (.bool false, r)
    | '"' :: r => (parseStringChars r).map (fun p => (.str (String.mk p.1), p.2))
    | '[' :: r =>
      (match skipWs r with
       | ']' :: r2 => some (.arr [], r2)
       | _ => (parseElems fuel r).map (fun p => (.arr p.1, p.2)))
    | '\x7b' :: r =>
      (match skipWs r with
       | '\x7d' :: r2 => some (.obj [], r2)
       | _ => (parseMembers fuel r).map (fun p => (.obj p.1, p.2)))
    | cs2 => (parseNumber cs2).map (fun p => (.num p.1, p.2))

/-- Parse the comma-separated elements of a nonempty JSON array, up to
and including the closing bracket. -/
def parseElems : Nat → List Char → Option (List Json × List Char)
  | 0, _ => none
  | fuel + 1, cs =>
    match parseVal fuel cs with
    | none => none
    | some (v, rest) =>
      match skipWs rest with
      | ',' :: r => (parseElems fuel r).map (fun p => (v :: p.1, p.2))
      | ']' :: r => some ([v], r)
      | _ => none

/-- Parse the comma-separated members of a nonempty JSON object, up to
and including the closing brace. -/
def parseMembers : Nat → List Char → Option (List (String × Json) × List Char)
  | 0, _ => none
  | fuel + 1, cs =>
    match skipWs cs with
    | '"' :: r =>
      (match parseStringChars r with
       | none => none
       | some (key, rest) =>
         match skipWs rest with
         | ':' :: r2 =>
           (match parseVal fuel r2 with
            | none => none
            | some (v, rest2) =>
              match skipWs rest2 with
              | ',' :: r3 =>
                (parseMembers fuel r3).map (fun p => ((String.mk key, v) :: p.1, p.2))
              | '\x7d' :: r3 => some ([(String.mk key, v)], r3)
              | _ => none)
         | _ => none)
    | _ => none

end

/-- Embeds `JSON.parse(s)`: parse one value and require only whitespace
to remain; `none` models a thrown `SyntaxError`. The fuel `s.length + 1`
dominates the nesting depth of any parse of `s`. -/
def jsParse (s : String) : Option Json :=
  match parseVal (s.length + 1) s.data with
  | some (v, rest) => if skipWs rest = [] then some v else none
  | none => none

/-- Property lookup on a parsed JSON object; the last occurrence of a
duplicated key wins, as in a JavaScript object literal. -/
def jLookup (ms : List (String × Json)) (k : String) : Option Json :=
  match ms.reverse.find? (fun m => m.1 == k) with
  | some m => some m.2
  | none => none

/-- Read a JSON value as an integer (the only numeric shape the server's
payload fields use). -/
def decodeInt : Json → Option Int
  | .num q => if q.den = 1 then some q.num else none
  | _ => none

/-- Read a JSON value as a string. -/
def decodeStr : Json → Option String
  | .str s => some s
  | _ => none

/-- Decode a `summary` member: any object, with absent counts read as 0
(their values are discarded by the recomputation anyway). -/
def decodeSummary : Json → Option Summary
  | .obj ms => some
    { critical := ((jLookup ms "critical").bind decodeInt).getD 0,
      high := ((jLookup ms "high").bind decodeInt).getD 0,
      medium := ((jLookup ms "medium").bind decodeInt).getD 0,
      low := ((jLookup ms "low").bind decodeInt).getD 0,
      total := ((jLookup ms "total").bind decodeInt).getD 0 }
  | _ => none

/-- Decode one issue: dynamic field access on the object, every missing
or differently-typed field reading as absent (`undefined`). -/
def decodeIssue : Json → Issue
  | .obj ms =>
    { title := (jLookup ms "title").bind decodeStr,
      severity := (jLookup ms "severity").bind decodeStr,
      line := (jLookup ms "line").bind decodeInt,
      description := (jLookup ms "description").bind decodeStr,
      codeSnippet := (jLookup ms "codeSnippet").bind decodeStr,
      solution := (jLookup ms "solution").bind decodeStr }
  | _ => {}

/-- Decode the `issues` member when it is an array. -/
def decodeIssues : Json → Option (List Issue)
  | .arr xs => some (xs.map decodeIssue)
  | _ => none

/-- Decode the `suggestions` member when it is an array of strings. -/
def decodeSuggestions : Json → Option (List String)
  | .arr xs => some (xs.map (fun j => (decodeStr j).getD ""))
  | _ => none

/-- Decode the `metrics` member when it is an object. -/
def decodeMetrics : Json → Option Metrics
  | .obj ms => some
    { complexity := (jLookup ms "complexity").bind decodeInt,
      lines := (jLookup ms "lines").bind decodeInt,
      maintainability := (jLookup ms "maintainability").bind decodeInt,
      security := (jLookup ms "security").bind decodeInt }
  | _ => none

/-- Bridge from a parsed JSON value to the dynamic field accesses the
JavaScript performs on it. The structured model covers top-level objects
(the shape the prompt demands); a non-object top level reads as no
result. The source's dynamic semantics outside that shape (primitives
make the enhancement throw a `TypeError`; arrays would be enhanced
in place and answered successfully; exotic member types are carried
through or throw, depending on the member) are NOT reproduced by this
bridge, so every theorem below that draws a conclusion through the
success path restricts its hypotheses to `schemaShaped` payloads, where
the bridge and the source provably agree. -/
def toAnalysisResult : Json → Option AnalysisResult
  | .obj ms => some
    { summary := (jLookup ms "summary").bind decodeSummary,
      issues := (jLookup ms "issues").bind decodeIssues,
      suggestions := (jLookup ms "suggestions").bind decodeSuggestions,
      metrics := (jLookup ms "metrics").bind decodeMetrics }
  | _ => none

/-- True when the JSON value is an integer number. -/
def isIntNum : Json → Bool
  | .num q => q.den == 1
  | _ => false

/-- True when the JSON value is a string. -/
def isStrVal : Json → Bool
  | .str _ => true
  | _ => false

/-- Every key of the object's members appears in the allowed list. -/
def allowedKeys (ms : List (String × Json)) (ks : List String) : Bool :=
  ms.all (fun m => ks.contains m.1)

/-- The member, when present, satisfies the predicate. -/
def optField (ms : List (String × Json)) (k : String) (p : Json → Bool) : Bool :=
  match jLookup ms k with
  | none => true
  | some v => p v

/-- A `summary` member of the prompt's schema: an object holding only
integer counts under the five known keys. -/
def schemaSummary : Json → Bool
  | .obj ms =>
    allowedKeys ms ["critical", "high", "medium", "low", "total"] &&
    (["critical", "high", "medium", "low", "total"].all (fun k => optField ms k isIntNum))
  | _ => false

/-- An issue of the prompt's schema: an object holding only the six
known fields, with string text fields and an integer line. -/
def schemaIssue : Json → Bool
  | .obj ms =>
    allowedKeys ms ["title", "severity", "line", "description", "codeSnippet", "solution"] &&
    optField ms "title" isStrVal && optField ms "severity" isStrVal &&
    optField ms "line" isIntNum && optField ms "description" isStrVal &&
    optField ms "codeSnippet" isStrVal && optField ms "solution" isStrVal
  | _ => false

/-- A `metrics` member of the prompt's schema: an object holding only
integer values under the four known keys. -/
def schemaMetrics : Json → Bool
  | .obj ms =>
    allowedKeys ms ["complexity", "lines", "maintainability", "security"] &&
    (["complexity", "lines", "maintainability", "security"].all (fun k => optField ms k isIntNum))
  | _ => false

/-- The payloads on which the structured embedding reproduces the
source's dynamic enhancement exactly: a top-level object following the
prompt's schema — optional all-integer `summary` and `metrics` objects,
an optional `issues` array of well-typed issue objects, an optional
`suggestions` array of strings, and no extra keys anywhere. Outside this
class the source behaves dynamically (extra keys and exotic member
values are carried through to the response; a truthy non-array `issues`
or a truthy non-string severity makes `enhanceAnalysisResult` throw),
which the structured model does not reproduce; theorems concluding
through the success path therefore assume this predicate. -/
def schemaShaped : Json → Bool
  | .obj ms =>
    allowedKeys ms ["summary", "issues", "suggestions", "metrics"] &&
    optField ms "summary" schemaSummary &&
    optField ms "issues" (fun v =>
      match v with
      | .arr xs => xs.all schemaIssue
      | _ => false) &&
    optField ms "suggestions" (fun v =>
      match v with
      | .arr xs => xs.all isStrVal
      | _ => false) &&
    optField ms "metrics" schemaMetrics
  | _ => false

/-- `JSON.parse` followed by the dynamic reads of the result's fields. -/
def parseAnalysis (s : String) : Option AnalysisResult :=
  (jsParse s).bind toAnalysisResult

/-- Index of the first occurrence of a character. -/
def idxOfChar (cs : List Char) (c : Char) : Option Nat :=
  cs.findIdx? (· = c)

/-- Index of the last occurrence of a character. -/
def lastIdxOfChar (cs : List Char) (c : Char) : Option Nat :=
  match (cs.reverse.findIdx? (· = c)) with
  | some k => some (cs.length - 1 - k)
  | none => none

/-- Embeds `aiResponse.match(/\x7b[\s\S]*\x7d/)` (src/server.js line
110): the regex is greedy, so the (single) match runs from the first
`\x7b` to the last `\x7d` of the text, provided the latter comes after
the former. -/
def jsonMatch (s : String) : Option String :=
  match idxOfChar s.data '\x7b', lastIdxOfChar s.data '\x7d' with
  | some i, some j =>
    if i < j then some (String.mk ((s.data.drop i).take (j - i + 1))) else none
  | _, _ => none

/-- Scan for the closing brace matching the opening brace at the head of
the input, by depth counting; returns its index. Helper for the
spec-worded extraction below. -/
def braceScan : List Char → Nat → Nat → Option Nat
  | [], _, _ => none
  | '\x7b' :: cs, depth, idx => braceScan cs (depth + 1) (idx + 1)
  | '\x7d' :: cs, depth, idx =>
    if depth ≤ 1 then some idx else braceScan cs (depth - 1) (idx + 1)
  | _ :: cs, depth, idx => braceScan cs depth (idx + 1)

/-- Modelled from the spec's words, for comparison with `jsonMatch`
(refinement): "locate the first balanced `\x7b...\x7d` substring" — the
substring starting at the first opening brace and ending at its
depth-matching closing brace. -/
def firstBalancedBraces (s : String) : Option String :=
  match idxOfChar s.data '\x7b' with
  | some i =>
    (match braceScan (s.data.drop i) 0 0 with
     | some j => some (String.mk ((s.data.drop i).take (j + 1)))
     | none => none)
  | none => none

/-- Upstream (DeepSeek) call failures, as classified by the catch blocks:
an HTTP error status on the response, or no response at all. -/
inductive UpstreamError where
  | http (status : Nat)
  | network

/-- Outcome of one outbound chat-completion call: the raw model text on
success, or a failure. -/
inductive UpstreamOutcome where
  | success (content : String)
  | failure (e : UpstreamError)

/-- Observable behaviour of the outbound call sequence: its result, how
many HTTP attempts were made, and the backoff delays slept between
attempts. -/
structure CallTrace where
  result : UpstreamOutcome
  attempts : Nat
  backoffWaits : List Nat

/-- Embeds the outbound call of src/server.js lines 64-88: the handler
issues exactly one `axios.post` — there is no retry loop and no sleep in
the source — so the trace consults the upstream oracle once and performs
no backoff waits. -/
def serverApiCall (upstream : Nat → UpstreamOutcome) : CallTrace :=
  { result := upstream 0, attempts := 1, backoffWaits := [] }

/-- Error message selection of src/server.js lines 130-140: a default
message, specialised by the if/else-if chain on `error.response?.status`
for upstream statuses 401, 429 and 503. -/
def analyzeErrorMessage (e : UpstreamError) : String :=
  match e with
  | .http status =>
    if status = 401 then "API密钥无效或过期"
    else if status = 429 then "请求过于频繁，请稍后重试"
    else if status = 503 then "AI服务暂时不可用"
    else "分析失败"
  | .network => "分析失败"

/-- An HTTP response of the `/api/analyze` handler in src/server.js:
a success envelope with the enhanced result, or an error envelope with
a status and message. -/
inductive ServerResponse where
  | ok (data : EnhancedResult)
  | err (status : Nat) (error : String)

/-- HTTP status of a response. -/
def respStatus : ServerResponse → Nat
  | .ok _ => 200
  | .err s _ => s

/-- The `success` flag of the JSON envelope. -/
def respIsSuccess : ServerResponse → Bool
  | .ok _ => true
  | .err _ _ => false

/-- Embeds src/server.js lines 93-125 plus the enclosing catch: parse
the model text; on failure extract the greedy brace span and parse that;
if that also fails the handler throws, and the outer catch (the thrown
`Error` carries no `response`) answers status 500 with the default
message. The failure branches are exact: whenever `JSON.parse` rejects
both the raw text and the extracted span, the source answers exactly
this 500 envelope. The `.ok` branches reproduce the source only on
`schemaShaped` object payloads (see `toAnalysisResult`); theorems
concluding `.ok` below restrict their hypotheses accordingly, and no
theorem draws a conclusion from this function on a payload outside
that region. -/
def serverHandleAi (raw code : String) : ServerResponse :=
  match parseAnalysis raw with
  | some r => .ok (enhanceAnalysisResult r code)
  | none =>
    match jsonMatch raw with
    | some sub =>
      (match parseAnalysis sub with
       | some r => .ok (enhanceAnalysisResult r code)
       | none => .err 500 "分析失败")
    | none => .err 500 "分析失败"

/-- JavaScript whitespace as tested by `String.prototype.trim`,
restricted to the ASCII range (the validation only distinguishes
all-whitespace submissions). -/
def jsWsChar (c : Char) : Bool :=
  c = ' ' || c = '\t' || c = '\n' || c = '\r' || c = '\x0b' || c = '\x0c'

/-- Embeds `code.trim()`: strip leading and trailing whitespace. -/
def jsTrim (s : String) : String :=
  String.mk (((s.data.dropWhile jsWsChar).reverse.dropWhile jsWsChar).reverse)

/-- Embeds the `/api/analyze` handler of src/server.js lines 34-148:
missing key check, emptiness check, length check, then the single
upstream call, whose failure is classified by the catch block. -/
def serverAnalyze (apiKeyConfigured : Bool) (code : String)
    (upstream : Nat → UpstreamOutcome) : ServerResponse :=
  if apiKeyConfigured = false then
    .err 500 "API密钥未配置，请在环境变量中设置DEEPSEEK_API_KEY"
  else if (jsTrim code).length = 0 then .err 400 "代码不能为空"
  else if code.length > 10000 then .err 400 "代码过长，请限制在10000字符以内"
  else
    match (serverApiCall upstream).result with
    | .success raw => serverHandleAi raw code
    | .failure e => .err 500 (analyzeErrorMessage e)

/-- The fallback result the unnamed server file (src/unnamed/part_000,
lines 100-125) wraps a non-JSON model reply in: one low-severity issue
whose description is the first 500 characters of the raw text, fixed
suggestions and metrics (lines counted from the submitted code). -/
def part000FallbackResult (aiResponse code : String) : EnhancedResult :=
  { summary := { critical := 0, high := 0, medium := 0, low := 1, total := 1 },
    issues := [
      { title := some "AI分析结果",
        severity := some "low",
        line := some 1,
        description := some (aiResponse.take 500),
        solution := some "这是AI的原始分析结果" }],
    suggestions := ["请检查代码逻辑", "优化算法复杂度"],
    metrics := { complexity := 5, lines := localLines code,
                 maintainability := 80, security := 85 } }

/-- A response of the unnamed file's `/api/analyze`: the parsed model
JSON passed through verbatim (no enhancement), the wrapped fallback, or
an error envelope. -/
inductive P000Response where
  | okParsed (data : Json)
  | okFallback (data : EnhancedResult)
  | err (status : Nat) (error : String)

/-- HTTP status of an unnamed-file response. -/
def p000Status : P000Response → Nat
  | .okParsed _ => 200
  | .okFallback _ => 200
  | .err s _ => s

/-- Embeds src/unnamed/part_000 lines 88-125: `JSON.parse` the model
text and send it through unchanged; on a parse error wrap it in the
fallback result — the request still succeeds. -/
def part000HandleAi (aiResponse code : String) : P000Response :=
  match jsParse aiResponse with
  | some j => .okParsed j
  | none => .okFallback (part000FallbackResult aiResponse code)

/-- Error message selection of src/unnamed/part_000 lines 130-138. The
interpolated HTTP reason phrase (`statusText`) of the source's
`API错误: ${status} ${statusText}` template is elided — only the numeric
status is rendered — a declared simplification that no theorem observes:
no statement below mentions part_000's upstream error message. -/
def p000ErrMessage (e : UpstreamError) : String :=
  match e with
  | .http s => "API错误: " ++ toString s
  | .network => "网络错误: 无法连接到AI服务"

/-- Embeds the `/api/analyze` handler of src/unnamed/part_000 lines
32-146: emptiness check, then key check, then length check, then the
single upstream call. -/
def part000Analyze (apiKeyConfigured : Bool) (code : String)
    (upstream : Nat → UpstreamOutcome) : P000Response :=
  if (jsTrim code).length = 0 then .err 400 "代码不能为空"
  else if apiKeyConfigured = false then
    .err 500 "服务器配置错误: API密钥未设置"
  else if code.length > 10000 then .err 400 "代码过长，请限制在10000字符以内"
  else
    match upstream 0 with
    | .success raw => part000HandleAi raw code
    | .failure e => .err 500 (p000ErrMessage e)

/-- The synthetic result of `/api/analyze/demo` (src/unnamed/part_000
lines 156-191): a fixed summary and issue list, fixed suggestions, and
metrics whose line count is derived from the submitted code. Built
without consulting any upstream oracle: the handler performs no network
call. -/
def demoResult (code : String) : EnhancedResult :=
  { summary := { critical := 1, high := 2, medium := 3, low := 4, total := 10 },
    issues := [
      { title := some "示例: 潜在的空指针异常",
        severity := some "high",
        line := some 15,
        description := some "在第15行，变量可能为null",
        codeSnippet := some "String result = user.getName(); // user可能为null",
        solution := some "添加空值检查: if (user != null) user.getName()" },
      { title := some "示例: 字符串拼接低效",
        severity := some "medium",
        line := some 23,
        description := some "循环内使用字符串拼接，性能低下",
        codeSnippet := some "result += item; // 应该使用StringBuilder",
        solution := some "使用StringBuilder: StringBuilder sb = new StringBuilder();" }],
    suggestions := ["建议使用try-with-resources管理资源", "考虑添加输入验证", "优化数据库查询性能"],
    metrics := { complexity := 12, lines := localLines code,
                 maintainability := 75, security := 80 } }

/-- A response of `/api/analyze/demo`. -/
inductive DemoResponse where
  | ok (data : EnhancedResult) (note : String)
  | err (status : Nat) (error : String)

/-- HTTP status of a demo response. -/
def demoStatus : DemoResponse → Nat
  | .ok _ _ => 200
  | .err s _ => s

/-- Embeds the `/api/analyze/demo` handler (src/unnamed/part_000 lines
149-192): a missing or empty (falsy) `code` is rejected with 400,
anything else succeeds with the synthetic result. `code = none` models a
body without a `code` field. -/
def demoHandler (apiKeyConfigured : Bool) (code : Option String) : DemoResponse :=
  match code with
  | none => .err 400 "代码不能为空"
  | some c =>
    if c = "" then .err 400 "代码不能为空"
    else .ok (demoResult c)
      (if apiKeyConfigured then "真实AI分析" else "这是演示数据，请配置API密钥使用真实分析")

/-- Modelled from the spec's words (section 4.1 / claim C3), for
comparison with `serverApiCall`: after `n < 3` rate-limited attempts
followed by a success, the client returns the success payload having
performed `n` backoff waits. -/
def retryPolicyClaim : Prop :=
  ∀ (upstream : Nat → UpstreamOutcome) (payload : String) (n : Nat),
    n < 3 →
    (∀ k, k < n → upstream k = .failure (.http 429)) →
    upstream n = .success payload →
    (serverApiCall upstream).result = .success payload ∧
    (serverApiCall upstream).backoffWaits.length = n

/-- A 10001-character submission, one over the documented limit. -/
def longCode : String := String.mk (List.replicate 10001 'a')

/-- An upstream oracle that is never consulted successfully. -/
def upstreamNever : Nat → UpstreamOutcome := fun _ => .failure .network

/-- An upstream that answers 401 (invalid credential) to every attempt. -/
def upstream401 : Nat → UpstreamOutcome := fun _ => .failure (.http 401)

/-- An upstream that answers 429 (rate limited) to every attempt. -/
def upstream429 : Nat → UpstreamOutcome := fun _ => .failure (.http 429)

/-- An upstream that rate-limits the first attempt and would succeed on
every later one. -/
def upstream429then : Nat → UpstreamOutcome :=
  fun k => if k = 0 then .failure (.http 429) else .success "ok"

/-- A model reply with two JSON objects amid garbage: direct parse
fails, and greedy extraction grabs an unparseable span. -/
def garbledReply : String := "x\x7b\"a\":1\x7dy\x7b\"b\":2\x7d"

/-- A model reply with one schema-shaped JSON object after a prefix:
direct parse fails, greedy extraction recovers it. -/
def prefixedReply : String := "pre \x7b\"issues\":[]\x7d"

/-- A one-issue model result used to instantiate the summary theorem. -/
def sampleResult : AnalysisResult :=
  { issues := some [{ severity := some "High" }] }

/-- A model result reporting a zero, a positive, a negative and another
positive metric, to instantiate the backfill theorem. -/
def sampleMetrics : AnalysisResult :=
  { metrics := some { complexity := some 7, lines := some 0,
                      maintainability := some (-2), security := some 60 } }

/-- A model result reporting nothing at all. -/
def emptyResult : AnalysisResult := {}

theorem longCode_length : longCode.length = 10001 := by
  have h : ∀ (n : Nat), (String.mk (List.replicate n 'a')).length = n := by
    intro n
    show (List.replicate n 'a').length = n
    simp
  exact h 10001

theorem jsOr_falsy (v : Option Int) (d : Int) (h : jsFalsy v = true) : jsOr v d = d := by
  cases v with
  | none => rfl
  | some n =>
    simp [jsFalsy] at h
    simp [jsOr, h]

theorem jsOr_nonzero (v : Option Int) (d n : Int) (hv : v = some n) (h : n ≠ 0) :
    jsOr v d = n := by
  subst hv
  simp [jsOr, h]

theorem sevStep_sum (acc : SevCounts) (i : Issue) :
    (sevStep acc i).critical + (sevStep acc i).high + (sevStep acc i).medium +
      (sevStep acc i).low =
    acc.critical + acc.high + acc.medium + acc.low +
      (if recognizedSeverity (jsSeverity i) then 1 else 0) := by
  by_cases h1 : jsSeverity i = "critical"
  · simp [sevStep, recognizedSeverity, h1]; ring
  · by_cases h2 : jsSeverity i = "high"
    · simp [sevStep, recognizedSeverity, h1, h2]; ring
    · by_cases h3 : jsSeverity i = "medium"
      · simp [sevStep, recognizedSeverity, h1, h2, h3]; ring
      · by_cases h4 : jsSeverity i = "low"
        · simp [sevStep, recognizedSeverity, h1, h2, h3, h4]; ring
        · simp [sevStep, recognizedSeverity, beq_iff_eq, h1, h2, h3, h4]

theorem sevFold_sum (issues : List Issue) (acc : SevCounts) :
    (issues.foldl sevStep acc).critical + (issues.foldl sevStep acc).high +
      (issues.foldl sevStep acc).medium + (issues.foldl sevStep acc).low =
    acc.critical + acc.high + acc.medium + acc.low +
      ((issues.countP (fun i => recognizedSeverity (jsSeverity i))) : Int) := by
  induction issues generalizing acc with
  | nil => simp
  | cons i is ih =>
    simp only [List.foldl_cons, List.countP_cons]
    rw [ih]
    have hstep := sevStep_sum acc i
    by_cases h : recognizedSeverity (jsSeverity i) = true <;>
      simp [h] at hstep ⊢ <;> omega

/-- Claim C6: `estimateCyclomaticComplexity` equals a base value of 1
plus the number of (pattern) occurrences of `if`, `for`, `while`,
`catch`, `case`, `&&`, `||` and `?`, clamped to the interval [1, 50].
Determinism is inherent: the embedding is a pure function of the source
text. -/
theorem complexity_heuristic_spec (code : String) :
    estimateCyclomaticComplexity code =
      max 1 (min (1 + countMatches ifPat code.data + countMatches forPat code.data +
        countMatches whilePat code.data + countMatches catchPat code.data +
        countMatches casePat code.data + countMatches ampPat code.data +
        countMatches pipePat code.data + countMatches questionPat code.data) 50) ∧
    1 ≤ estimateCyclomaticComplexity code ∧
    estimateCyclomaticComplexity code ≤ 50 := by
  refine ⟨rfl, Nat.le_max_left _ _, ?_⟩
  exact Nat.max_le.mpr ⟨by omega, Nat.min_le_right _ _⟩

/-- Claim C1 (amended): in src/server.js's live path,
`enhanceAnalysisResult` recomputes the summary from the actual issues:
`summary.total` equals `issues.length`, and the four severity counts sum
to the number of issues whose effective severity (lowercased, defaulting
to `low`) is one of the four recognised levels — hence the counts sum to
`total` whenever every issue carries a recognised severity. (The demo
endpoint's fixed summary and part_000's pass-through live path do not
satisfy the original claim; see the counterexample.) -/
theorem enhanced_summary_recomputed (r : AnalysisResult) (c : String) :
    (enhanceAnalysisResult r c).summary.total =
      ((enhanceAnalysisResult r c).issues.length : Int) ∧
    (enhanceAnalysisResult r c).summary.critical +
      (enhanceAnalysisResult r c).summary.high +
      (enhanceAnalysisResult r c).summary.medium +
      (enhanceAnalysisResult r c).summary.low =
      (((enhanceAnalysisResult r c).issues.countP
        (fun i => recognizedSeverity (jsSeverity i))) : Int) ∧
    ((∀ i ∈ (enhanceAnalysisResult r c).issues, recognizedSeverity (jsSeverity i) = true) →
      (enhanceAnalysisResult r c).summary.critical +
        (enhanceAnalysisResult r c).summary.high +
        (enhanceAnalysisResult r c).summary.medium +
        (enhanceAnalysisResult r c).summary.low =
        (enhanceAnalysisResult r c).summary.total) := by
  have hto : (enhanceAnalysisResult r c).summary.total =
      ((r.issues.getD []).length : Int) := rfl
  have his : (enhanceAnalysisResult r c).issues = r.issues.getD [] := rfl
  have hsum : (enhanceAnalysisResult r c).summary.critical +
      (enhanceAnalysisResult r c).summary.high +
      (enhanceAnalysisResult r c).summary.medium +
      (enhanceAnalysisResult r c).summary.low =
      (((r.issues.getD []).countP (fun i => recognizedSeverity (jsSeverity i))) : Int) := by
    have := sevFold_sum (r.issues.getD []) {}
    simpa [enhanceAnalysisResult] using this
  refine ⟨by rw [hto, his], by rw [hsum, his], ?_⟩
  intro hall
  rw [hsum, hto]
  have hc : (r.issues.getD []).countP (fun i => recognizedSeverity (jsSeverity i)) =
      (r.issues.getD []).length :=
    List.countP_eq_length.mpr (fun a ha => hall a ha)
  rw [hc]

/-- Witness for C1's theorem at a concrete one-issue result. -/
theorem enhanced_summary_recomputed_witness :
    (enhanceAnalysisResult sampleResult "x").summary.critical +
      (enhanceAnalysisResult sampleResult "x").summary.high +
      (enhanceAnalysisResult sampleResult "x").summary.medium +
      (enhanceAnalysisResult sampleResult "x").summary.low =
      (enhanceAnalysisResult sampleResult "x").summary.total :=
  (enhanced_summary_recomputed sampleResult "x").2.2 (by decide)

/-- Counterexample to claim C1 as stated: the demo path's successful
response carries the fixed summary `total = 10` over a list of 2 issues,
so `summary.total == issues.length` fails on a successful
`/api/analyze/demo` response. -/
theorem demo_summary_total_mismatch :
    demoHandler false (some "int x;") =
      .ok (demoResult "int x;") "这是演示数据，请配置API密钥使用真实分析" ∧
    (demoResult "int x;").summary.total = 10 ∧
    (demoResult "int x;").issues.length = 2 ∧
    (demoResult "int x;").summary.total ≠ ((demoResult "int x;").issues.length : Int) :=
  ⟨rfl, rfl, rfl, by decide⟩

/-- Claim C9: `enhanceAnalysisResult` treats a reported metric value of
0 like a missing field — `lines`, `complexity`, `maintainability` and
`security` are overwritten by the locally computed estimate when falsy —
while every nonzero reported value is passed through unchanged. -/
theorem metrics_zero_treated_as_missing (r : AnalysisResult) (c : String) :
    (jsFalsy (reportedMetrics r).lines = true →
      (enhanceAnalysisResult r c).metrics.lines = localLines c) ∧
    (∀ n : Int, (reportedMetrics r).lines = some n → n ≠ 0 →
      (enhanceAnalysisResult r c).metrics.lines = n) ∧
    (jsFalsy (reportedMetrics r).complexity = true →
      (enhanceAnalysisResult r c).metrics.complexity =
        (estimateCyclomaticComplexity c : Int)) ∧
    (∀ n : Int, (reportedMetrics r).complexity = some n → n ≠ 0 →
      (enhanceAnalysisResult r c).metrics.complexity = n) ∧
    (jsFalsy (reportedMetrics r).maintainability = true →
      (enhanceAnalysisResult r c).metrics.maintainability =
        localMaintainability ((r.issues.getD []).length : Int)) ∧
    (∀ n : Int, (reportedMetrics r).maintainability = some n → n ≠ 0 →
      (enhanceAnalysisResult r c).metrics.maintainability = n) ∧
    (jsFalsy (reportedMetrics r).security = true →
      (enhanceAnalysisResult r c).metrics.security =
        localSecurity (((r.issues.getD []).filter issueMentionsSecurity).length : Int)) ∧
    (∀ n : Int, (reportedMetrics r).security = some n → n ≠ 0 →
      (enhanceAnalysisResult r c).metrics.security = n) := by
  have hl : (enhanceAnalysisResult r c).metrics.lines =
      jsOr (reportedMetrics r).lines (localLines c) := rfl
  have hx : (enhanceAnalysisResult r c).metrics.complexity =
      jsOr (reportedMetrics r).complexity (estimateCyclomaticComplexity c : Int) := rfl
  have hm : (enhanceAnalysisResult r c).metrics.maintainability =
      jsOr (reportedMetrics r).maintainability
        (localMaintainability ((r.issues.getD []).length : Int)) := rfl
  have hs : (enhanceAnalysisResult r c).metrics.security =
      jsOr (reportedMetrics r).security
        (localSecurity (((r.issues.getD []).filter issueMentionsSecurity).length : Int)) := rfl
  refine ⟨fun h => ?_, fun n hv hn => ?_, fun h => ?_, fun n hv hn => ?_,
    fun h => ?_, fun n hv hn => ?_, fun h => ?_, fun n hv hn => ?_⟩
  · rw [hl, jsOr_falsy _ _ h]
  · rw [hl, jsOr_nonzero _ _ n hv hn]
  · rw [hx, jsOr_falsy _ _ h]
  · rw [hx, jsOr_nonzero _ _ n hv hn]
  · rw [hm, jsOr_falsy _ _ h]
  · rw [hm, jsOr_nonzero _ _ n hv hn]
  · rw [hs, jsOr_falsy _ _ h]
  · rw [hs, jsOr_nonzero _ _ n hv hn]

/-- Witness for C9's theorem at a concrete metrics report: a zero line
count is backfilled, while the nonzero (even negative) values pass
through. -/
theorem metrics_zero_treated_as_missing_witness :
    (enhanceAnalysisResult sampleMetrics "a\nb").metrics.lines = localLines "a\nb" ∧
    (enhanceAnalysisResult sampleMetrics "a\nb").metrics.complexity = 7 ∧
    (enhanceAnalysisResult sampleMetrics "a\nb").metrics.maintainability = -2 ∧
    (enhanceAnalysisResult sampleMetrics "a\nb").metrics.security = 60 :=
  ⟨(metrics_zero_treated_as_missing sampleMetrics "a\nb").1 (by decide),
   (metrics_zero_treated_as_missing sampleMetrics "a\nb").2.2.2.1 7 (by decide) (by decide),
   (metrics_zero_treated_as_missing sampleMetrics "a\nb").2.2.2.2.2.1 (-2) (by decide) (by decide),
   (metrics_zero_treated_as_missing sampleMetrics "a\nb").2.2.2.2.2.2.2 60 (by decide) (by decide)⟩

/-- Claim C10: a locally backfilled maintainability score lies in
[50, 100], and a locally backfilled security score lies in [0, 100]. -/
theorem backfilled_scores_in_range (r : AnalysisResult) (c : String) :
    (jsFalsy (reportedMetrics r).maintainability = true →
      50 ≤ (enhanceAnalysisResult r c).metrics.maintainability ∧
      (enhanceAnalysisResult r c).metrics.maintainability ≤ 100) ∧
    (jsFalsy (reportedMetrics r).security = true →
      0 ≤ (enhanceAnalysisResult r c).metrics.security ∧
      (enhanceAnalysisResult r c).metrics.security ≤ 100) := by
  constructor
  · intro h
    have hm : (enhanceAnalysisResult r c).metrics.maintainability =
        localMaintainability ((r.issues.getD []).length : Int) := by
      have : (enhanceAnalysisResult r c).metrics.maintainability =
          jsOr (reportedMetrics r).maintainability
            (localMaintainability ((r.issues.getD []).length : Int)) := rfl
      rw [this, jsOr_falsy _ _ h]
    rw [hm]
    unfold localMaintainability
    have h5 : (0 : Int) ≤ ((r.issues.getD []).length : Int) * 5 := by positivity
    have hmin : (0 : Int) ≤ min (((r.issues.getD []).length : Int) * 5) 50 :=
      le_min h5 (by norm_num)
    exact ⟨le_max_left _ _, max_le (by norm_num) (by linarith)⟩
  · intro h
    have hs : (enhanceAnalysisResult r c).metrics.security =
        localSecurity (((r.issues.getD []).filter issueMentionsSecurity).length : Int) := by
      have : (enhanceAnalysisResult r c).metrics.security =
          jsOr (reportedMetrics r).security
            (localSecurity (((r.issues.getD []).filter issueMentionsSecurity).length : Int)) := rfl
      rw [this, jsOr_falsy _ _ h]
    rw [hs]
    unfold localSecurity
    have h10 : (0 : Int) ≤
        (((r.issues.getD []).filter issueMentionsSecurity).length : Int) * 10 := by positivity
    exact ⟨le_max_left _ _, max_le (by norm_num) (by linarith)⟩

/-- Witness for C10's theorem at a result reporting no metrics. -/
theorem backfilled_scores_in_range_witness :
    (50 ≤ (enhanceAnalysisResult emptyResult "x").metrics.maintainability ∧
      (enhanceAnalysisResult emptyResult "x").metrics.maintainability ≤ 100) ∧
    (0 ≤ (enhanceAnalysisResult emptyResult "x").metrics.security ∧
      (enhanceAnalysisResult emptyResult "x").metrics.security ≤ 100) :=
  ⟨(backfilled_scores_in_range emptyResult "x").1 (by decide),
   (backfilled_scores_in_range emptyResult "x").2 (by decide)⟩

/-- Claim C2 (amended): on a model text that fails direct JSON parsing,
the unnamed file's handler (src/unnamed/part_000) answers success with
exactly one low-severity issue whose description is the first 500
characters of the raw text — it never throws; src/server.js's handler,
however, answers a 500 failure whenever the greedy brace extraction also
yields nothing parseable, so there a malformed model output IS surfaced
to the caller as a failure. -/
theorem malformed_output_recovery (raw code : String) (hp : jsParse raw = none) :
    (part000HandleAi raw code = .okFallback (part000FallbackResult raw code) ∧
     (part000FallbackResult raw code).issues.map Issue.severity = [some "low"] ∧
     (part000FallbackResult raw code).issues.map Issue.description = [some (raw.take 500)] ∧
     p000Status (part000HandleAi raw code) = 200) ∧
    ((jsonMatch raw).bind jsParse = none →
      serverHandleAi raw code = .err 500 "分析失败" ∧
      respIsSuccess (serverHandleAi raw code) = false) := by
  constructor
  · exact ⟨by simp [part000HandleAi, hp], rfl, rfl, by simp [part000HandleAi, hp, p000Status]⟩
  · intro hrec
    have hpa : parseAnalysis raw = none := by simp [parseAnalysis, hp]
    cases hjm : jsonMatch raw with
    | none => simp [serverHandleAi, hpa, hjm, respIsSuccess]
    | some sub =>
      rw [hjm] at hrec
      simp only [Option.some_bind] at hrec
      have hsub : parseAnalysis sub = none := by simp [parseAnalysis, hrec]
      simp [serverHandleAi, hpa, hjm, hsub, respIsSuccess]

/-- Witness for C2's theorem on the unparseable model text `"hello"`. -/
theorem malformed_output_recovery_witness :
    part000HandleAi "hello" "int x;" =
      .okFallback (part000FallbackResult "hello" "int x;") ∧
    serverHandleAi "hello" "int x;" = .err 500 "分析失败" :=
  ⟨(malformed_output_recovery "hello" "int x;" rfl).1.1,
   ((malformed_output_recovery "hello" "int x;" rfl).2 rfl).1⟩

/-- Counterexample to claim C2 as stated: in src/server.js, the raw
model text `"hello"` (no JSON object recoverable) makes the request fail
with a 500 error envelope instead of completing successfully with one
low-severity issue. -/
theorem unrecoverable_output_fails_request :
    serverHandleAi "hello" "int x;" = .err 500 "分析失败" ∧
    respStatus (serverHandleAi "hello" "int x;") = 500 ∧
    respIsSuccess (serverHandleAi "hello" "int x;") = false :=
  ⟨rfl, rfl, rfl⟩

/-- Claim C3 (amended): the outbound call of src/server.js lines 64-88
makes exactly one attempt and performs no backoff waits — its result is
whatever the upstream answers on attempt 0; in particular a 401
(like any failure) fails on the first attempt with no retry, and a 429
is NOT retried either. -/
theorem single_attempt_no_backoff (upstream : Nat → UpstreamOutcome) :
    (serverApiCall upstream).attempts = 1 ∧
    (serverApiCall upstream).backoffWaits = [] ∧
    (serverApiCall upstream).result = upstream 0 ∧
    (upstream 0 = .failure (.http 401) →
      (serverApiCall upstream).result = .failure (.http 401) ∧
      (serverApiCall upstream).attempts = 1) := by
  exact ⟨rfl, rfl, rfl, fun h => ⟨h, rfl⟩⟩

/-- Witness for C3's theorem at the all-401 upstream. -/
theorem single_attempt_no_backoff_witness :
    (serverApiCall upstream401).result = .failure (.http 401) ∧
    (serverApiCall upstream401).attempts = 1 :=
  (single_attempt_no_backoff upstream401).2.2.2 rfl

/-- Counterexample to claim C3 as stated: with one simulated 429
followed by success (N = 1 < 3), the client does not return the success
payload after one backoff wait — src/server.js has no retry loop, so the
call fails on the 429 immediately. -/
theorem no_retry_on_rate_limit : ¬ retryPolicyClaim := by
  intro h
  have h2 := (h upstream429then "ok" 1 (by omega)
    (fun k hk => by
      have hk0 : k = 0 := by omega
      subst hk0
      rfl)
    rfl).1
  simp [serverApiCall, upstream429then] at h2

/-- Claim C4 (amended): when the API key IS configured, every
submission longer than 10000 characters is answered with status 400 by
both servers, regardless of content (blank oversized input also gets
400, via the emptiness branch); with the key missing, however, the
missing-key branch answers 500 before the length check is reached. -/
theorem oversized_code_rejected_with_key (code : String) (h : code.length > 10000) :
    (∀ upstream, respStatus (serverAnalyze true code upstream) = 400) ∧
    (∀ upstream, p000Status (part000Analyze true code upstream) = 400) := by
  constructor <;> intro upstream <;>
    by_cases he : (jsTrim code).length = 0 <;>
      simp [serverAnalyze, part000Analyze, he, h, respStatus, p000Status]

/-- Witness for C4's theorem at the 10001-character submission. -/
theorem oversized_code_rejected_with_key_witness :
    respStatus (serverAnalyze true longCode upstreamNever) = 400 ∧
    p000Status (part000Analyze true longCode upstreamNever) = 400 :=
  ⟨(oversized_code_rejected_with_key longCode (by rw [longCode_length]; omega)).1
      upstreamNever,
   (oversized_code_rejected_with_key longCode (by rw [longCode_length]; omega)).2
      upstreamNever⟩

/-- Counterexample to claim C4 as stated: a 10001-character code is NOT
answered with a 400-class status when the server is configured without
an API key — src/server.js checks the key first and answers 500. -/
theorem oversized_code_not_rejected_without_key :
    longCode.length = 10001 ∧
    respStatus (serverAnalyze false longCode upstreamNever) = 500 ∧
    respStatus (serverAnalyze false longCode upstreamNever) / 100 ≠ 4 := by
  refine ⟨longCode_length, rfl, by decide⟩

/-- Claim C5 (amended): credential problems and rate limiting are all
surfaced with HTTP status 500, not 401/503/429: a missing key answers
500 before any upstream contact, an upstream 401 answers 500 with the
invalid-key message, and an upstream 429 answers 500 with the
rate-limit message. -/
theorem error_statuses_with_messages (code : String)
    (upstream : Nat → UpstreamOutcome)
    (hne : (jsTrim code).length ≠ 0) (hlen : ¬ code.length > 10000) :
    (upstream 0 = .failure (.http 401) →
      serverAnalyze true code upstream = .err 500 "API密钥无效或过期") ∧
    (upstream 0 = .failure (.http 429) →
      serverAnalyze true code upstream = .err 500 "请求过于频繁，请稍后重试") ∧
    serverAnalyze false code upstream =
      .err 500 "API密钥未配置，请在环境变量中设置DEEPSEEK_API_KEY" := by
  refine ⟨fun h => ?_, fun h => ?_, by simp [serverAnalyze]⟩ <;>
    simp [serverAnalyze, serverApiCall, hne, hlen, h, analyzeErrorMessage]

/-- Witness for C5's theorem on a small valid submission. -/
theorem error_statuses_with_messages_witness :
    serverAnalyze true "int x;" upstream401 = .err 500 "API密钥无效或过期" ∧
    serverAnalyze true "int x;" upstream429 = .err 500 "请求过于频繁，请稍后重试" :=
  ⟨(error_statuses_with_messages "int x;" upstream401 (by decide) (by decide)).1 rfl,
   (error_statuses_with_messages "int x;" upstream429 (by decide) (by decide)).2.1 rfl⟩

/-- Counterexample to claim C5 as stated: an upstream 401 is answered
with status 500 — neither 401 nor 503 — and an upstream 429 is answered
with 500, not 429. -/
theorem upstream_errors_surfaced_as_500 :
    respStatus (serverAnalyze true "int x;" upstream401) = 500 ∧
    (500 : Nat) ≠ 401 ∧ (500 : Nat) ≠ 503 ∧
    respStatus (serverAnalyze true "int x;" upstream429) = 500 ∧
    (500 : Nat) ≠ 429 :=
  ⟨rfl, by decide, by decide, rfl, by decide⟩

/-- Claim C7 (amended): when direct JSON parsing of the raw model text
fails (`jsParse raw = none`, so the source's first `JSON.parse` throws
and the recovery really runs), src/server.js's recovery parses the
substring produced by the greedy regex `jsonMatch` — the span from the
first opening brace to the LAST closing brace — not the first balanced
brace substring; when that span parses to a schema-shaped object, the
response is the enhanced result decoded from the greedy span. The
`_h4 : schemaShaped j = true` hypothesis confines the theorem to the
payloads on which the structured embedding reproduces the source's
dynamic enhancement (see `schemaShaped`); outside it — e.g. a span
`\x7b"issues":5\x7d`, whose truthy non-array `issues` makes the source
throw — the theorem makes no statement. -/
theorem recovery_parses_greedy_span (raw code sub : String) (j : Json) (r : AnalysisResult)
    (h1 : jsParse raw = none) (h2 : jsonMatch raw = some sub)
    (h3 : jsParse sub = some j) (_h4 : schemaShaped j = true)
    (h5 : toAnalysisResult j = some r) :
    serverHandleAi raw code = .ok (enhanceAnalysisResult r code) := by
  have hp : parseAnalysis raw = none := by simp [parseAnalysis, h1]
  have hs : parseAnalysis sub = some r := by simp [parseAnalysis, h3, h5]
  simp [serverHandleAi, hp, h2, hs]

/-- Witness for C7's theorem: a reply with a prefix before one
schema-shaped JSON object is recovered through the greedy span. -/
theorem recovery_parses_greedy_span_witness :
    serverHandleAi prefixedReply "int x;" =
      .ok (enhanceAnalysisResult { issues := some [] } "int x;") :=
  recovery_parses_greedy_span prefixedReply "int x;" "\x7b\"issues\":[]\x7d"
    (Json.obj [("issues", Json.arr [])]) { issues := some [] } rfl rfl rfl rfl rfl

/-- Counterexample to claim C7 as stated: on a reply holding two JSON
objects amid garbage, the code's greedy extraction spans from the first
`\x7b` to the last `\x7d` — not the first balanced substring — so the
recovery parses an unparseable span and the request fails, although the
first balanced substring is perfectly parseable. -/
theorem greedy_not_first_balanced :
    jsonMatch garbledReply = some "\x7b\"a\":1\x7dy\x7b\"b\":2\x7d" ∧
    firstBalancedBraces garbledReply = some "\x7b\"a\":1\x7d" ∧
    ("\x7b\"a\":1\x7dy\x7b\"b\":2\x7d" : String) ≠ "\x7b\"a\":1\x7d" ∧
    (jsParse "\x7b\"a\":1\x7d").isSome = true ∧
    serverHandleAi garbledReply "int x;" = .err 500 "分析失败" :=
  ⟨rfl, rfl, by decide, rfl, rfl⟩

/-- Claim C8 (amended): `/api/analyze/demo` succeeds for every request
whose `code` is a nonempty string, returning the synthetic result —
whose summary is internally consistent, whose issues all carry
recognised severities and whose line count is derived from the
submitted code — and the result is computed without any upstream call
(the handler takes no upstream oracle) and does not depend on whether an
API key is configured; a missing or empty `code`, however, is rejected
with 400, so the endpoint does not succeed on EVERY body of the
`/api/analyze` input shape. -/
theorem demo_succeeds_on_nonempty (k : Bool) (c : String) (h : c ≠ "") :
    demoStatus (demoHandler k (some c)) = 200 ∧
    (∃ note, demoHandler k (some c) = .ok (demoResult c) note) ∧
    (demoResult c).summary.critical + (demoResult c).summary.high +
      (demoResult c).summary.medium + (demoResult c).summary.low =
      (demoResult c).summary.total ∧
    (∀ i ∈ (demoResult c).issues, recognizedSeverity (jsSeverity i) = true) ∧
    (demoResult c).metrics.lines = localLines c := by
  refine ⟨?_, ?_, by norm_num [demoResult], ?_, rfl⟩
  · simp [demoHandler, demoStatus, h]
  · exact ⟨if k then "真实AI分析" else "这是演示数据，请配置API密钥使用真实分析",
      by simp [demoHandler, h]⟩
  · intro i hi
    simp only [demoResult, List.mem_cons, List.mem_singleton] at hi
    rcases hi with rfl | rfl | hi
    · rfl
    · rfl
    · simp at hi

/-- Witness for C8's theorem at a one-character submission. -/
theorem demo_succeeds_on_nonempty_witness :
    demoStatus (demoHandler false (some "x")) = 200 :=
  (demo_succeeds_on_nonempty false "x" (by decide)).1

/-- Counterexample to claim C8 as stated: a body of the `/api/analyze`
input shape with an empty `code` string (or no `code` at all) does NOT
succeed on `/api/analyze/demo` — it is rejected with 400. -/
theorem demo_rejects_empty_code :
    demoHandler true (some "") = .err 400 "代码不能为空" ∧
    demoStatus (demoHandler true (some "")) = 400 ∧
    demoHandler true none = .err 400 "代码不能为空" :=
  ⟨rfl, rfl, rfl⟩

end JavaScanner
